import Mathlib

/-!
Verification development for the `wowasi_ya` document-generation pipeline.

The Python source under `src/wowasi_ya` is shallowly embedded here:
pure text manipulation is modelled on `List Char` (Python `str` values),
stateful provider clients are modelled by explicit state passing, and
code that can raise is modelled with `Except String`.  Network calls to
an LLM provider are abstracted as an oracle `Nat → Except String (List Char)`
giving, for each successive call made by the code, either the generated
text (`ok`) or the message of the raised exception (`error`).

Sections:
* text primitives shared by the generator (`core/generator.py`);
* the truncation detector `_is_content_truncated`;
* the document data model (`models/document.py`);
* the generator state machine (`generate_document`, `generate_batch`,
  `generate_all`, `_get_previous_context`);
* the provider clients and factory (`core/llm_client.py`);
* the research executor (`core/research.py`).
-/

/-- Character list of a string literal; Python `str` values are modelled
as `List Char`. -/
def chars (s : String) : List Char := s.data

/-- The backtick character (written via its code point). -/
def backtickChar : Char := Char.ofNat 96

/-- The single-quote character (written via its code point). -/
def squoteChar : Char := Char.ofNat 39

/-- The double-quote character (written via its code point). -/
def dquoteChar : Char := Char.ofNat 34

/-- Python `str.isspace` / `str.strip` whitespace class (ASCII part):
space, tab, newline, carriage return, vertical tab, form feed. -/
def isPySpace (c : Char) : Bool :=
  c = ' ' || c = Char.ofNat 9 || c = Char.ofNat 10 ||
  c = Char.ofNat 13 || c = Char.ofNat 11 || c = Char.ofNat 12

/-- Python `s.strip()`: drop leading and trailing whitespace. -/
def pyStrip (l : List Char) : List Char :=
  ((l.dropWhile isPySpace).reverse.dropWhile isPySpace).reverse

/-- Helper for `wordCount`: counts maximal runs of non-whitespace
characters; `inWord` records whether the previous character was
part of a word. -/
def wordCountAux : List Char → Bool → Nat
  | [], _ => 0
  | c :: rest, inWord =>
    if isPySpace c then wordCountAux rest false
    else (if inWord then 0 else 1) + wordCountAux rest true

/-- Python `len(s.split())`: the number of whitespace-delimited tokens. -/
def wordCount (l : List Char) : Nat := wordCountAux l false

/-- Python `content.count("```")`: non-overlapping occurrences of three
backticks, scanning left to right. -/
def countTriple : List Char → Nat
  | c1 :: c2 :: c3 :: rest =>
    if c1 = backtickChar && c2 = backtickChar && c3 = backtickChar then
      1 + countTriple rest
    else countTriple (c2 :: c3 :: rest)
  | _ :: _ => 0
  | [] => 0

/-- Python `content.split("\n")`: split on newline characters; the result
is never empty. -/
def splitNl : List Char → List (List Char)
  | [] => [[]]
  | c :: rest =>
    if c = '\n' then [] :: splitNl rest
    else
      match splitNl rest with
      | [] => [[c]]
      | l :: ls => (c :: l) :: ls

/-- Helper for `isHeadingLine`: after at least one `#`, accept one or
more further `#` then require a whitespace character (regex `#*\s`). -/
def headingAfterHash : List Char → Bool
  | '#' :: rest => headingAfterHash rest
  | c :: _ => isPySpace c
  | [] => false

/-- Regex `^#+\s` of `_is_content_truncated`: markdown heading line. -/
def isHeadingLine : List Char → Bool
  | '#' :: rest => headingAfterHash rest
  | _ => false

/-- Regex `^\|.*\|$`: a table row (starts and ends with `|`, length at
least two). -/
def isTableRow (l : List Char) : Bool :=
  match l with
  | c :: _ :: _ => c = '|' && l.getLast? = some '|'
  | _ => false

/-- Regex `^```" + "`: line opening with a code-fence marker. -/
def isCodeMarker (l : List Char) : Bool :=
  match l with
  | c1 :: c2 :: c3 :: _ => c1 = backtickChar && c2 = backtickChar && c3 = backtickChar
  | _ => false

/-- Regex `^---$`: a horizontal rule. -/
def isHorizontalRule (l : List Char) : Bool := l = ['-', '-', '-']

/-- Regex `^[-*+]\s`: a bulleted list item. -/
def isListItem : List Char → Bool
  | c :: d :: _ => (c = '-' || c = '*' || c = '+') && isPySpace d
  | _ => false

/-- Helper for `isNumberedItem`: after the first digit, consume digits,
then require `.` followed by a whitespace character. -/
def numberedTail : List Char → Bool
  | c :: rest =>
    if c.isDigit then numberedTail rest
    else if c = '.' then
      match rest with
      | d :: _ => isPySpace d
      | [] => false
    else false
  | [] => false

/-- Regex `^\d+\.\s`: a numbered list item. -/
def isNumberedItem : List Char → Bool
  | c :: rest => c.isDigit && numberedTail rest
  | [] => false

/-- The `skip_patterns` test of `_is_content_truncated`: line types whose
last line is exempt from the terminal-punctuation check. -/
def isSpecialLine (l : List Char) : Bool :=
  isHeadingLine l || isTableRow l || isCodeMarker l ||
  isHorizontalRule l || isListItem l || isNumberedItem l

/-- The `valid_endings` tuple of `_is_content_truncated`:
`(".", "!", "?", ":", ")", "]", '"', "'", "`", "*", "_")`. -/
def validEndChar (c : Char) : Bool :=
  c = '.' || c = '!' || c = '?' || c = ':' || c = ')' || c = ']' ||
  c = dquoteChar || c = squoteChar || c = backtickChar || c = '*' || c = '_'

/-- Python `last_line.endswith(valid_endings)`. -/
def endsValid (l : List Char) : Bool :=
  match l.getLast? with
  | some c => validEndChar c
  | none => false

/-- The non-empty stripped lines of the content, as computed by
`_is_content_truncated`:
`[l.strip() for l in content.split("\n") if l.strip()]`. -/
def linesOf (c : List Char) : List (List Char) :=
  ((splitNl c).map pyStrip).filter (fun l => !l.isEmpty)

/-- Check 2 of `_is_content_truncated`: the last non-empty stripped line
is neither a special line nor ends in an accepted terminal character. -/
def midSentenceFlag (c : List Char) : Bool :=
  match (linesOf c).getLast? with
  | some last => !isSpecialLine last && !endsValid last
  | none => false

/-- Regex search `\*\*[^*]+$` on the trailing window: the string ends in
a non-empty run of non-`*` characters immediately preceded by `**`. -/
def unclosedBold (s : List Char) : Bool :=
  let r := s.reverse
  let t := r.takeWhile (fun c => c ≠ '*')
  !t.isEmpty &&
    (match r.drop t.length with
     | c1 :: c2 :: _ => c1 = '*' && c2 = '*'
     | _ => false)

/-- Helper for `unclosedLink`: scanning the reversed window, a `[` is met
before any `]`. -/
def revHasOpenBracket : List Char → Bool
  | [] => false
  | ']' :: _ => false
  | '[' :: _ => true
  | _ :: rest => revHasOpenBracket rest

/-- Regex search `\[[^\]]*$` on the trailing window: a `[` with no later
`]`. -/
def unclosedLink (s : List Char) : Bool := revHasOpenBracket s.reverse

/-- Python `l[-n:]` for positive `n`: the last `n` elements. -/
def lastN (n : Nat) (l : List Char) : List Char := l.drop (l.length - n)

/-- Model of `_is_content_truncated` from `core/generator.py` (the source also
returns a human-readable reason used only for logging, omitted here):
empty content, an odd number of code-fence markers, a last line that
ends mid-sentence, or an unclosed bold/link span in the trailing 200
characters all flag truncation. -/
def isContentTruncated (content : List Char) : Bool :=
  if pyStrip content = [] then true
  else
    let c := pyStrip content
    if countTriple c % 2 ≠ 0 then true
    else if midSentenceFlag c then true
    else if unclosedBold (lastN 200 c) then true
    else if unclosedLink (lastN 200 c) then true
    else false

/-- The 15 document kinds of `models/document.py` (`DocumentType`). -/
inductive DocumentType where
  | README
  | PROJECT_BRIEF
  | GLOSSARY
  | CONTEXT_BACKGROUND
  | STAKEHOLDER_NOTES
  | GOALS_SUCCESS
  | SCOPE_BOUNDARIES
  | INITIAL_BUDGET
  | TIMELINE_MILESTONES
  | RISKS_ASSUMPTIONS
  | PROCESS_WORKFLOW
  | SOPS
  | TASK_BACKLOG
  | MEETING_NOTES
  | STATUS_UPDATES
  deriving DecidableEq, Repr

/-- One entry of the static `DOCUMENT_CONFIG` table in
`core/generator.py`. -/
structure DocConfig where
  folder : String
  filename : String
  title : String
  deriving DecidableEq, Repr

/-- The static `DOCUMENT_CONFIG` table of `core/generator.py`: folder,
filename and title for each document type. -/
def DOCUMENT_CONFIG : DocumentType → DocConfig
  | .README => ⟨"00-Overview", "README.md", "Project Overview"⟩
  | .PROJECT_BRIEF => ⟨"00-Overview", "Project-Brief.md", "Project Brief"⟩
  | .GLOSSARY => ⟨"00-Overview", "Glossary.md", "Glossary"⟩
  | .CONTEXT_BACKGROUND => ⟨"10-Discovery", "Context-and-Background.md", "Context and Background"⟩
  | .STAKEHOLDER_NOTES => ⟨"10-Discovery", "Stakeholder-Notes.md", "Stakeholder Notes"⟩
  | .GOALS_SUCCESS => ⟨"20-Planning", "Goals-and-Success-Criteria.md", "Goals and Success Criteria"⟩
  | .SCOPE_BOUNDARIES => ⟨"20-Planning", "Scope-and-Boundaries.md", "Scope and Boundaries"⟩
  | .INITIAL_BUDGET => ⟨"20-Planning", "Initial-Budget.md", "Initial Budget"⟩
  | .TIMELINE_MILESTONES => ⟨"20-Planning", "Timeline-and-Milestones.md", "Timeline and Milestones"⟩
  | .RISKS_ASSUMPTIONS => ⟨"20-Planning", "Risks-and-Assumptions.md", "Risks and Assumptions"⟩
  | .PROCESS_WORKFLOW => ⟨"30-Execution", "Process-Workflow.md", "Process Workflow"⟩
  | .SOPS => ⟨"30-Execution", "SOPs.md", "Standard Operating Procedures"⟩
  | .TASK_BACKLOG => ⟨"30-Execution", "Task-Backlog.md", "Task Backlog"⟩
  | .MEETING_NOTES => ⟨"40-Comms", "Meeting-Notes.md", "Meeting Notes"⟩
  | .STATUS_UPDATES => ⟨"40-Comms", "Status-Updates.md", "Status Updates"⟩

/-- A generated document (`models/document.py`, class `Document`).
The wall-clock `generated_at` timestamp and the always-default
`quality_score` field are outside the model. -/
structure Document where
  type : DocumentType
  title : String
  content : List Char
  folder : String
  filename : String
  word_count : Nat
  deriving DecidableEq, Repr

/-- A batch of documents (`models/document.py`, class `DocumentBatch`). -/
structure DocumentBatch where
  batch_number : Nat
  document_types : List DocumentType
  depends_on : List Nat
  deriving DecidableEq, Repr

/-- The fixed `DOCUMENT_BATCHES` table of `models/document.py`. -/
def DOCUMENT_BATCHES : List DocumentBatch :=
  [ ⟨1, [.README, .PROJECT_BRIEF, .GLOSSARY], []⟩,
    ⟨2, [.CONTEXT_BACKGROUND, .STAKEHOLDER_NOTES], [1]⟩,
    ⟨3, [.GOALS_SUCCESS, .SCOPE_BOUNDARIES, .INITIAL_BUDGET,
         .TIMELINE_MILESTONES, .RISKS_ASSUMPTIONS], [1, 2]⟩,
    ⟨4, [.PROCESS_WORKFLOW, .SOPS, .TASK_BACKLOG], [3]⟩,
    ⟨5, [.MEETING_NOTES, .STATUS_UPDATES], []⟩ ]

/-- Project input (`models/project.py`, class `ProjectInput`); only the
fields the generator reads are modelled. -/
structure ProjectInput where
  name : String
  description : String
  area : String
  additional_context : Option String
  output_format : String
  deriving DecidableEq, Repr

/-- The aggregate result of `generate_all` (`models/document.py`, class
`GeneratedProject`); the wall-clock timing fields, token counters and
`output_paths` (filled by downstream output writers) are outside the
model. -/
structure GeneratedProject where
  project_name : String
  project_area : String
  documents : List Document
  total_word_count : Nat
  deriving DecidableEq, Repr

/-- A provider-call oracle: the `n`-th call to `client.generate` either
returns generated text or raises (with the given message). -/
def GenOracle := Nat → Except String (List Char)

/-- The `Document` built by `generate_document` on its success path and
on its partial-content path (both use the same constructor call:
`word_count = len(content.split())`). -/
def successDocument (dt : DocumentType) (content : List Char) : Document :=
  { type := dt
    title := (DOCUMENT_CONFIG dt).title
    content := content
    folder := (DOCUMENT_CONFIG dt).folder
    filename := (DOCUMENT_CONFIG dt).filename
    word_count := wordCount content }

/-- The synthesized error-placeholder body of the complete-failure path:
`f"# {config['title']}\n\n*Error generating document: {last_error!s}*"`. -/
def errorPlaceholder (dt : DocumentType) (err : String) : List Char :=
  chars "# " ++ chars (DOCUMENT_CONFIG dt).title ++
  chars "\n\n*Error generating document: " ++ chars err ++ chars "*"

/-- The `Document` built on the complete-failure path of
`generate_document` (note `word_count=0` there in the source). -/
def failureDocument (dt : DocumentType) (err : String) : Document :=
  { type := dt
    title := (DOCUMENT_CONFIG dt).title
    content := errorPlaceholder dt err
    folder := (DOCUMENT_CONFIG dt).folder
    filename := (DOCUMENT_CONFIG dt).filename
    word_count := 0 }

namespace DocumentGenerator

/-- The retry loop of `DocumentGenerator.generate_document`, by
recursion on the number of attempts still allowed after the current one
(`attemptsLeft = max_retries - attempt`).  `k` is the index of the next
provider call, `lastContent` the `last_content` accumulator.  On a
successful call the content is kept; truncated content is retried while
attempts remain, and the final attempt's content is returned as-is.  On
an exception the loop retries while attempts remain; once exhausted it
returns the last successfully received content if any, else the error
placeholder. -/
def genDocAux (oracle : GenOracle) (dt : DocumentType) :
    Nat → Nat → List Char → Document × Nat
  | attemptsLeft, k, lastContent =>
    match oracle k with
    | .ok content =>
      if isContentTruncated content then
        match attemptsLeft with
        | a + 1 => genDocAux oracle dt a (k + 1) content
        | 0 => (successDocument dt content, k + 1)
      else (successDocument dt content, k + 1)
    | .error e =>
      match attemptsLeft with
      | a + 1 => genDocAux oracle dt a (k + 1) lastContent
      | 0 =>
        if lastContent ≠ [] then (successDocument dt lastContent, k + 1)
        else (failureDocument dt e, k + 1)

/-- Model of `DocumentGenerator.generate_document` from `core/generator.py`,
for a fixed document type: runs up to `maxRetries + 1` provider calls
starting at call index `k` and always returns a `Document` together
with the next call index.  (Prompt construction and the fixed token
budget, which do not affect the claims, are not modelled; the
previous-documents context fed into the prompt is recorded at the
batch layer.) -/
def generate_document (oracle : GenOracle) (k : Nat) (dt : DocumentType)
    (maxRetries : Nat) : Document × Nat :=
  genDocAux oracle dt maxRetries k []

/-- One step of a batch run: the document type requested, the
`previous_docs` list passed to `generate_document` (and hence into
prompt construction), and the produced document. -/
structure GenStep where
  docType : DocumentType
  context : List Document
  doc : Document
  deriving DecidableEq, Repr

/-- The loop body of `DocumentGenerator.generate_batch`: documents of a
batch are generated sequentially and each call receives
`previous_docs + documents` (the accumulated prior documents plus those
generated earlier in the same batch).  Each step records the context it
was given.  `generate_batch` in the source calls `generate_document`
with its default `max_retries = 2`. -/
def generateBatchSteps (oracle : GenOracle) :
    List DocumentType → Nat → List Document → List GenStep × Nat
  | [], k, _ => ([], k)
  | dt :: rest, k, prev =>
    let r := generate_document oracle k dt 2
    let tail := generateBatchSteps oracle rest r.2 (prev ++ [r.1])
    (⟨dt, prev, r.1⟩ :: tail.1, tail.2)

/-- Model of `DocumentGenerator.generate_batch`: the documents produced for one
batch, given the accumulated previous documents. -/
def generate_batch (oracle : GenOracle) (batch : DocumentBatch) (k : Nat)
    (prev : List Document) : List Document × Nat :=
  let r := generateBatchSteps oracle batch.document_types k prev
  (r.1.map GenStep.doc, r.2)

/-- The batch loop of `DocumentGenerator.generate_all`: batches are
processed in `DOCUMENT_BATCHES` order, each receiving the accumulated
`all_documents`, which is extended with the batch's output afterwards.
The per-batch steps (with their recorded contexts) are returned. -/
def genBatchesSteps (oracle : GenOracle) :
    List DocumentBatch → Nat → List Document →
    List (DocumentBatch × List GenStep) × Nat
  | [], k, _ => ([], k)
  | b :: rest, k, acc =>
    let r := generateBatchSteps oracle b.document_types k acc
    let docs := r.1.map GenStep.doc
    let tail := genBatchesSteps oracle rest r.2 (acc ++ docs)
    ((b, r.1) :: tail.1, tail.2)

/-- The instrumented full run over the fixed `DOCUMENT_BATCHES`. -/
def generateAllSteps (oracle : GenOracle) (k0 : Nat) :
    List (DocumentBatch × List GenStep) × Nat :=
  genBatchesSteps oracle DOCUMENT_BATCHES k0 []

/-- Model of `DocumentGenerator.generate_all` from `core/generator.py`: all
batches in order, then the aggregate `GeneratedProject` with
`total_word_count = sum(d.word_count for d in all_documents)`.
(The wall-clock `generation_time_seconds` is outside the model.) -/
def generate_all (oracle : GenOracle) (k0 : Nat) (project : ProjectInput) :
    GeneratedProject × Nat :=
  let r := generateAllSteps oracle k0
  let docs := (r.1.map (fun p => p.2.map GenStep.doc)).flatten
  ({ project_name := project.name
     project_area := project.area
     documents := docs
     total_word_count := (docs.map Document.word_count).sum }, r.2)

/-- The per-document excerpt of `_get_previous_context`:
`doc.content[:500] + "..." if len(doc.content) > 500 else doc.content`. -/
def excerptOf (content : List Char) : List Char :=
  if 500 < content.length then content.take 500 ++ chars "..." else content

/-- One entry of the previous-documents digest:
`f"**{doc.title}:**\n{excerpt}"`. -/
def contextEntry (d : Document) : List Char :=
  chars "**" ++ chars d.title ++ chars ":**\n" ++ excerptOf d.content

/-- Python `sep.join(parts)`. -/
def joinSep (sep : List Char) : List (List Char) → List Char
  | [] => []
  | [x] => x
  | x :: y :: rest => x ++ sep ++ joinSep sep (y :: rest)

/-- Model of `DocumentGenerator._get_previous_context` from `core/generator.py`:
titles and brief excerpts of `docs[-3:]`, joined by blank lines; this
digest is interpolated into every generation prompt built by the 15
specialized prompt builders (each calls
`self._get_previous_context(previous_docs)`). -/
def get_previous_context (docs : List Document) : List Char :=
  if docs = [] then chars "No previous documents."
  else joinSep (chars "\n\n") ((docs.drop (docs.length - 3)).map contextEntry)

end DocumentGenerator

/-- The kinds of client instance the factories of `core/llm_client.py`
can return: the self-hosted `LlamaCPPClient`, the hosted `ClaudeClient`,
or the `FallbackClient` wrapper (Claude primary, Llama secondary). -/
inductive ClientKind where
  | llama
  | claude
  | fallback
  deriving DecidableEq, Repr

/-- The mutable state of a `FallbackClient`: `_llama_available` caches
the secondary's health-check outcome once `_get_llama_client` has run
(`none` = not yet checked). -/
structure FallbackState where
  llamaAvailable : Option Bool
  deriving DecidableEq, Repr

namespace FallbackClient

/-- Model of `FallbackClient._get_llama_client`: lazily construct the Llama
client and health-check it once, caching the result for the wrapper's
lifetime; returns whether the secondary is usable. -/
def get_llama_client (health : Bool) (st : FallbackState) :
    Bool × FallbackState :=
  match st.llamaAvailable with
  | some b => (b, st)
  | none => (health, ⟨some health⟩)

/-- Model of `FallbackClient.generate` from `core/llm_client.py`: try the
primary (Claude); on an exception, if `claude_fallback_to_llamacpp` is
enabled and the (lazily health-checked) secondary is live, return the
secondary's outcome for the same prompt/parameters, else re-raise the
primary's error.  `claudeResult`/`llamaResult` are the outcomes the two
backends would produce for this call. -/
def generate (fallbackEnabled : Bool) (claudeResult : Except String String)
    (llamaHealth : Bool) (llamaResult : Except String String)
    (st : FallbackState) : Except String String × FallbackState :=
  match claudeResult with
  | .ok t => (.ok t, st)
  | .error e =>
    if fallbackEnabled then
      let r := get_llama_client llamaHealth st
      if r.1 then (llamaResult, r.2) else (.error e, r.2)
    else (.error e, st)

end FallbackClient

/-- The error raised by `get_generation_client` when the self-hosted
provider is down and fallback is disabled. -/
def llamaUnavailableMsg : String :=
  "Llama CPP unavailable and fallback disabled. Please ensure Mac is online with Cloudflare tunnel running, or set LLAMACPP_FALLBACK_TO_CLAUDE=true"

/-- Model of `get_generation_client` from `core/llm_client.py`: with
`generation_provider = "llamacpp"`, health-check the self-hosted
provider and return it when live; otherwise return the hosted client if
`llamacpp_fallback_to_claude` is set, else raise the actionable
configuration error.  With any other provider value, return the
`FallbackClient` wrapper when `claude_fallback_to_llamacpp` is set,
else the bare hosted client. -/
def get_generation_client (generation_provider : String)
    (llamaHealthy llamacpp_fallback_to_claude claude_fallback_to_llamacpp : Bool) :
    Except String ClientKind :=
  if generation_provider = "llamacpp" then
    if llamaHealthy then .ok .llama
    else if llamacpp_fallback_to_claude then .ok .claude
    else .error llamaUnavailableMsg
  else if claude_fallback_to_llamacpp then .ok .fallback
  else .ok .claude

/-- The backend that serves a `generate()` call on a factory-returned
client: the bare hosted client always answers with the hosted (Claude)
backend's outcome, the bare self-hosted client with the Llama backend's
outcome; the wrapper runs `FallbackClient.generate` from a fresh state. -/
def clientGenerate (c : ClientKind) (fallbackEnabled : Bool)
    (claudeResult : Except String String) (llamaHealth : Bool)
    (llamaResult : Except String String) : Except String String :=
  match c with
  | .claude => claudeResult
  | .llama => llamaResult
  | .fallback =>
    (FallbackClient.generate fallbackEnabled claudeResult llamaHealth
      llamaResult ⟨none⟩).1

/-- A research agent definition (`models/agent.py`, class
`AgentDefinition`). -/
structure AgentDefinition where
  id : String
  name : String
  role : String
  domains : List String
  research_questions : List String
  search_queries : List String
  priority : Nat
  deriving DecidableEq, Repr

/-- A research agent result (`models/agent.py`, class `AgentResult`);
the token-usage counters always default to `0` in the modelled paths. -/
structure AgentResult where
  agent_id : String
  findings : List String
  sources : List String
  recommendations : List String
  raw_response : Option String
  deriving DecidableEq, Repr

namespace ResearchEngine

/-- The exception-to-result conversion of
`ResearchEngine.execute_all`: a task that raised becomes an
`AgentResult` with an explanatory findings entry and empty
sources/recommendations (`raw_response` defaults to `None`). -/
def convertOutcome (a : AgentDefinition)
    (outcome : Except String AgentResult) : AgentResult :=
  match outcome with
  | .ok r => r
  | .error e =>
    { agent_id := a.id
      findings := ["Agent execution failed: " ++ e]
      sources := []
      recommendations := []
      raw_response := none }

/-- The gather loop of `ResearchEngine.execute_all`: `asyncio.gather`
with `return_exceptions=True` yields one outcome per input agent in
input order; `i` is the position of the head agent.  `exec` gives, for
each position and agent, either that agent's `AgentResult` or the
exception its task raised. -/
def executeAllAux (exec : Nat → AgentDefinition → Except String AgentResult) :
    Nat → List AgentDefinition → List AgentResult
  | _, [] => []
  | i, a :: rest =>
    convertOutcome a (exec i a) :: executeAllAux exec (i + 1) rest

/-- Model of `ResearchEngine.execute_all` from `core/research.py`: execute all
agents (bounded concurrency does not affect which results are produced,
and output order is the input order), converting raised exceptions into
failed results. -/
def execute_all (agents : List AgentDefinition)
    (exec : Nat → AgentDefinition → Except String AgentResult) :
    List AgentResult :=
  executeAllAux exec 0 agents

end ResearchEngine

/-- Provider stub used in witnesses: always returns fixed clean
(non-truncated) markdown. -/
def okCleanOracle : GenOracle := fun _ => .ok (chars "All good.")

/-- Provider stub used in witnesses: always returns content the
truncation detector flags. -/
def okTruncOracle : GenOracle := fun _ => .ok (chars "...the budget is")

/-- Provider stub used in witnesses: every call raises. -/
def allErrorOracle : GenOracle := fun _ => .error "boom"

/-- Provider stub used in witnesses: always returns the empty string. -/
def emptyOkOracle : GenOracle := fun _ => .ok []

/-- Sample project input used in witnesses. -/
def sampleProject : ProjectInput :=
  ⟨"Youth Mentorship", "A community mentorship program pairing youth with elders.",
   "04_Iyeska", none, "filesystem"⟩

/-- Sample agent definition used in witnesses. -/
def sampleAgentA : AgentDefinition :=
  ⟨"agent_000_frameworks", "Frameworks", "documentation frameworks researcher",
   [], [], [], 1⟩

/-- Second sample agent definition used in witnesses. -/
def sampleAgentB : AgentDefinition :=
  ⟨"agent_001_funding", "Funding", "funding researcher", [], [], [], 2⟩

/-- Agent execution stub used in witnesses: the first agent's task
raises, every other agent succeeds. -/
def sampleExec : Nat → AgentDefinition → Except String AgentResult :=
  fun i a =>
    if i = 0 then .error "socket closed"
    else .ok ⟨a.id, ["found"], ["src"], ["rec"], some "raw"⟩

/-! ### Helper lemmas for the generator retry loop -/

/-- Step equation: a non-truncated successful call returns immediately. -/
theorem genDocAux_ok_clean (oracle : GenOracle) (dt : DocumentType)
    (aLeft k : Nat) (last c : List Char) (h : oracle k = .ok c)
    (ht : isContentTruncated c = false) :
    DocumentGenerator.genDocAux oracle dt aLeft k last =
      (successDocument dt c, k + 1) := by
  rw [DocumentGenerator.genDocAux, h]
  cases aLeft <;> simp [ht]

/-- Step equation: on the final attempt a successful call returns its
content even when truncated. -/
theorem genDocAux_zero_ok (oracle : GenOracle) (dt : DocumentType)
    (k : Nat) (last c : List Char) (h : oracle k = .ok c) :
    DocumentGenerator.genDocAux oracle dt 0 k last =
      (successDocument dt c, k + 1) := by
  rw [DocumentGenerator.genDocAux, h]
  dsimp only
  split <;> rfl

/-- Step equation: truncated content with attempts remaining retries,
keeping the content as `last_content`. -/
theorem genDocAux_succ_ok_trunc (oracle : GenOracle) (dt : DocumentType)
    (a k : Nat) (last c : List Char) (h : oracle k = .ok c)
    (ht : isContentTruncated c = true) :
    DocumentGenerator.genDocAux oracle dt (a + 1) k last =
      DocumentGenerator.genDocAux oracle dt a (k + 1) c := by
  rw [DocumentGenerator.genDocAux, h]
  simp [ht]

/-- Step equation: an exception with attempts remaining retries. -/
theorem genDocAux_succ_error (oracle : GenOracle) (dt : DocumentType)
    (a k : Nat) (last : List Char) (e : String) (h : oracle k = .error e) :
    DocumentGenerator.genDocAux oracle dt (a + 1) k last =
      DocumentGenerator.genDocAux oracle dt a (k + 1) last := by
  rw [DocumentGenerator.genDocAux, h]

/-- Step equation: an exception on the final attempt returns the last
received content if any, else the error placeholder. -/
theorem genDocAux_zero_error (oracle : GenOracle) (dt : DocumentType)
    (k : Nat) (last : List Char) (e : String) (h : oracle k = .error e) :
    DocumentGenerator.genDocAux oracle dt 0 k last =
      if last ≠ [] then (successDocument dt last, k + 1)
      else (failureDocument dt e, k + 1) := by
  rw [DocumentGenerator.genDocAux, h]

/-- The error placeholder body is never the empty string. -/
theorem errorPlaceholder_ne_nil (dt : DocumentType) (e : String) :
    errorPlaceholder dt e ≠ [] := by
  unfold errorPlaceholder
  intro h
  simp only [List.append_eq_nil] at h
  exact absurd h.1.1.1.1 (by decide)

/-- Every path of the retry loop returns a document of the requested
type. -/
theorem genDocAux_type (oracle : GenOracle) (dt : DocumentType) :
    ∀ (aLeft k : Nat) (last : List Char),
      (DocumentGenerator.genDocAux oracle dt aLeft k last).1.type = dt := by
  intro aLeft
  induction aLeft with
  | zero =>
    intro k last
    cases h : oracle k with
    | ok c => rw [genDocAux_zero_ok oracle dt k last c h]; rfl
    | error e =>
      rw [genDocAux_zero_error oracle dt k last e h]
      split <;> rfl

  | succ a ih =>
    intro k last
    cases h : oracle k with
    | ok c =>
      cases ht : isContentTruncated c with
      | true => rw [genDocAux_succ_ok_trunc oracle dt a k last c h ht]; exact ih (k + 1) c
      | false => rw [genDocAux_ok_clean oracle dt (a + 1) k last c h ht]; rfl
    | error e =>
      rw [genDocAux_succ_error oracle dt a k last e h]
      exact ih (k + 1) last

/-- If every successful provider response is non-empty, the retry loop
never returns empty content. -/
theorem genDocAux_content_ne_nil (oracle : GenOracle) (dt : DocumentType)
    (Hne : ∀ n c, oracle n = .ok c → c ≠ ([] : List Char)) :
    ∀ (aLeft k : Nat) (last : List Char),
      (DocumentGenerator.genDocAux oracle dt aLeft k last).1.content ≠ [] := by
  intro aLeft
  induction aLeft with
  | zero =>
    intro k last
    cases h : oracle k with
    | ok c =>
      rw [genDocAux_zero_ok oracle dt k last c h]
      exact Hne k c h
    | error e =>
      rw [genDocAux_zero_error oracle dt k last e h]
      split
      · next hlast => exact hlast
      · exact errorPlaceholder_ne_nil dt e
  | succ a ih =>
    intro k last
    cases h : oracle k with
    | ok c =>
      cases ht : isContentTruncated c with
      | true => rw [genDocAux_succ_ok_trunc oracle dt a k last c h ht]; exact ih (k + 1) c
      | false =>
        rw [genDocAux_ok_clean oracle dt (a + 1) k last c h ht]
        exact Hne k c h
    | error e =>
      rw [genDocAux_succ_error oracle dt a k last e h]
      exact ih (k + 1) last

/-- Every document the retry loop returns either has its word count
computed from its content, or is the zero-word-count error placeholder. -/
theorem genDocAux_word_count (oracle : GenOracle) (dt : DocumentType) :
    ∀ (aLeft k : Nat) (last : List Char),
      ((DocumentGenerator.genDocAux oracle dt aLeft k last).1.word_count =
        wordCount (DocumentGenerator.genDocAux oracle dt aLeft k last).1.content)
      ∨ ((DocumentGenerator.genDocAux oracle dt aLeft k last).1.word_count = 0 ∧
          ∃ e, (DocumentGenerator.genDocAux oracle dt aLeft k last).1.content =
            errorPlaceholder dt e) := by
  intro aLeft
  induction aLeft with
  | zero =>
    intro k last
    cases h : oracle k with
    | ok c =>
      rw [genDocAux_zero_ok oracle dt k last c h]
      left; rfl
    | error e =>
      rw [genDocAux_zero_error oracle dt k last e h]
      split
      · left; rfl
      · right; exact ⟨rfl, e, rfl⟩
  | succ a ih =>
    intro k last
    cases h : oracle k with
    | ok c =>
      cases ht : isContentTruncated c with
      | true => rw [genDocAux_succ_ok_trunc oracle dt a k last c h ht]; exact ih (k + 1) c
      | false =>
        rw [genDocAux_ok_clean oracle dt (a + 1) k last c h ht]
        left; rfl
    | error e =>
      rw [genDocAux_succ_error oracle dt a k last e h]
      exact ih (k + 1) last

/-- With an always-truncated, never-raising provider, the retry loop
consumes exactly one provider call per allowed attempt and returns the
last response. -/
theorem genDocAux_all_truncated (oracle : GenOracle) (dt : DocumentType)
    (H : ∀ n, ∃ c, oracle n = .ok c ∧ isContentTruncated c = true) :
    ∀ (aLeft k : Nat) (last : List Char),
      ∃ c, oracle (k + aLeft) = .ok c ∧
        DocumentGenerator.genDocAux oracle dt aLeft k last =
          (successDocument dt c, k + aLeft + 1) := by
  intro aLeft
  induction aLeft with
  | zero =>
    intro k last
    obtain ⟨c, hc, ht⟩ := H k
    exact ⟨c, by simpa using hc, by rw [genDocAux_zero_ok oracle dt k last c hc]⟩
  | succ a ih =>
    intro k last
    obtain ⟨c, hc, ht⟩ := H k
    obtain ⟨c2, hc2, heq⟩ := ih (k + 1) c
    refine ⟨c2, by rw [← hc2]; congr 1; omega, ?_⟩
    rw [genDocAux_succ_ok_trunc oracle dt a k last c hc ht, heq]
    congr 2
    omega

/-! ### Claim C1: retry ceiling of `generate_document` -/

/-- C1: for every `max_retries` and every provider whose `generate()`
always returns content classified as truncated (and never raises),
`generate_document` makes exactly `max_retries + 1` provider calls
(hence at most that many), never raises (the model is a total
function), and the returned document's content is the content received
from the last provider call. -/
theorem c1_retry_ceiling (oracle : GenOracle) (dt : DocumentType)
    (maxRetries k : Nat)
    (H : ∀ n, ∃ c, oracle n = .ok c ∧ isContentTruncated c = true) :
    (DocumentGenerator.generate_document oracle k dt maxRetries).2 - k ≤ maxRetries + 1
    ∧ ∃ c, oracle (k + maxRetries) = .ok c ∧
        (DocumentGenerator.generate_document oracle k dt maxRetries).1.content = c ∧
        (DocumentGenerator.generate_document oracle k dt maxRetries).2 = k + maxRetries + 1 := by
  obtain ⟨c, hc, heq⟩ := genDocAux_all_truncated oracle dt H maxRetries k []
  unfold DocumentGenerator.generate_document
  rw [heq]
  exact ⟨by omega, c, hc, rfl, rfl⟩

/-- Witness for C1: a concrete always-truncated provider stub with
`max_retries = 2` makes three calls and returns the third response. -/
theorem c1_retry_ceiling_witness :
    (DocumentGenerator.generate_document okTruncOracle 0 DocumentType.README 2).2 - 0 ≤ 2 + 1
    ∧ ∃ c, okTruncOracle (0 + 2) = .ok c ∧
        (DocumentGenerator.generate_document okTruncOracle 0 DocumentType.README 2).1.content = c ∧
        (DocumentGenerator.generate_document okTruncOracle 0 DocumentType.README 2).2 = 0 + 2 + 1 :=
  c1_retry_ceiling okTruncOracle DocumentType.README 2 0
    (fun _ => ⟨chars "...the budget is", rfl, by decide⟩)

/-! ### Claim C8: `generate_document` returns the requested type with
non-empty content -/

/-- C8 (amended): `generate_document` always returns a document of the
requested type; its content is non-empty provided every successful
provider response is non-empty (with an empty-string-returning
provider, the final attempt's empty response is returned as-is, which
refutes the original claim — see the counterexample). -/
theorem c8_type_and_nonempty (oracle : GenOracle) (k : Nat)
    (dt : DocumentType) (maxRetries : Nat) :
    (DocumentGenerator.generate_document oracle k dt maxRetries).1.type = dt
    ∧ ((∀ n c, oracle n = .ok c → c ≠ ([] : List Char)) →
        (DocumentGenerator.generate_document oracle k dt maxRetries).1.content ≠ []) :=
  ⟨genDocAux_type oracle dt maxRetries k [],
   fun Hne => genDocAux_content_ne_nil oracle dt Hne maxRetries k []⟩

/-- Counterexample for C8 as stated: with a provider that always
returns the empty string, `generate_document` returns a document whose
content is empty. -/
theorem c8_empty_content_counterexample :
    ¬ ((DocumentGenerator.generate_document emptyOkOracle 0 DocumentType.README 2).1.content ≠ []) := by
  decide

/-- Witness for C8 (amended): a concrete provider stub with non-empty
responses yields the requested type and non-empty content. -/
theorem c8_type_and_nonempty_witness :
    (DocumentGenerator.generate_document okCleanOracle 0 DocumentType.README 2).1.type = DocumentType.README
    ∧ (DocumentGenerator.generate_document okCleanOracle 0 DocumentType.README 2).1.content ≠ [] :=
  ⟨(c8_type_and_nonempty okCleanOracle 0 DocumentType.README 2).1,
   (c8_type_and_nonempty okCleanOracle 0 DocumentType.README 2).2
     (fun _ c h => by
       have hc : chars "All good." = c := Except.ok.inj h
       rw [← hc]
       decide)⟩

/-! ### Claim C9: `word_count` versus the whitespace-token count -/

/-- C9 (amended): every document returned by `generate_document` either
has `word_count` equal to the whitespace-token count of its content, or
is the synthesized error placeholder of the complete-failure path,
which carries `word_count = 0` (refuting the original claim — see the
counterexample). -/
theorem c9_word_count (oracle : GenOracle) (k : Nat) (dt : DocumentType)
    (maxRetries : Nat) :
    ((DocumentGenerator.generate_document oracle k dt maxRetries).1.word_count =
        wordCount (DocumentGenerator.generate_document oracle k dt maxRetries).1.content)
    ∨ ((DocumentGenerator.generate_document oracle k dt maxRetries).1.word_count = 0 ∧
        ∃ e, (DocumentGenerator.generate_document oracle k dt maxRetries).1.content =
          errorPlaceholder dt e) :=
  genDocAux_word_count oracle dt maxRetries k []

/-- Counterexample for C9 as stated: with a provider that always
raises, the returned placeholder document has `word_count = 0` while
its content has seven whitespace-delimited tokens. -/
theorem c9_word_count_counterexample :
    ¬ ((DocumentGenerator.generate_document allErrorOracle 0 DocumentType.README 2).1.word_count =
        wordCount (DocumentGenerator.generate_document allErrorOracle 0 DocumentType.README 2).1.content) := by
  decide

/-! ### Claim C4: the fallback-wrapping client -/

/-- C4: with a primary that raises and a secondary that is live and
succeeds, `FallbackClient.generate` returns the secondary's output when
fallback is enabled, and re-raises the primary's error when fallback is
disabled or the secondary is unavailable (fresh wrapper state, so the
lazy health check runs on this call). -/
theorem c4_fallback_client (e s : String) (enabled health : Bool) :
    (enabled = true → health = true →
      (FallbackClient.generate enabled (Except.error e) health (Except.ok s) ⟨none⟩).1 =
        Except.ok s)
    ∧ (enabled = false →
      (FallbackClient.generate enabled (Except.error e) health (Except.ok s) ⟨none⟩).1 =
        Except.error e)
    ∧ (health = false →
      (FallbackClient.generate enabled (Except.error e) health (Except.ok s) ⟨none⟩).1 =
        Except.error e) := by
  refine ⟨?_, ?_, ?_⟩
  · rintro rfl rfl
    rfl
  · rintro rfl
    rfl
  · rintro rfl
    cases enabled <;> rfl

/-- Witness for C4: concrete primary error and secondary output, with
fallback enabled and the secondary live. -/
theorem c4_fallback_client_witness :
    (FallbackClient.generate true (Except.error "rate limited") true
        (Except.ok "llama text") ⟨none⟩).1 = Except.ok "llama text" :=
  (c4_fallback_client "rate limited" "llama text" true true).1 rfl rfl

/-! ### Claim C5: the generation-client factory -/

/-- C5: with the self-hosted provider configured as primary, a live
health check returns the self-hosted client directly; a failed health
check returns the hosted client (whose `generate()` is served by the
hosted backend) when hosted-fallback is enabled, and otherwise raises
the actionable error naming the missing precondition (the host being
online). -/
theorem c5_generation_factory (fb cfl : Bool) :
    (get_generation_client "llamacpp" true fb cfl = .ok .llama)
    ∧ (get_generation_client "llamacpp" false true cfl = .ok .claude
       ∧ ∀ (fe : Bool) (cr : Except String String) (lh : Bool)
           (lr : Except String String), clientGenerate .claude fe cr lh lr = cr)
    ∧ (get_generation_client "llamacpp" false false cfl = .error llamaUnavailableMsg
       ∧ chars "ensure Mac is online" <:+: chars llamaUnavailableMsg) := by
  refine ⟨rfl, ⟨rfl, fun _ _ _ _ => rfl⟩, rfl, ?_⟩
  decide

/-! ### Claim C6: research partial-failure tolerance -/

/-- The gather loop preserves the number of agents. -/
theorem executeAllAux_length
    (exec : Nat → AgentDefinition → Except String AgentResult) :
    ∀ (l : List AgentDefinition) (n : Nat),
      (ResearchEngine.executeAllAux exec n l).length = l.length := by
  intro l
  induction l with
  | nil => intro n; rfl
  | cons a t ih => intro n; simp [ResearchEngine.executeAllAux, ih (n + 1)]

/-- Pointwise description of the gather loop: the `i`-th output is the
converted outcome of the `i`-th agent. -/
theorem executeAllAux_getElem?
    (exec : Nat → AgentDefinition → Except String AgentResult) :
    ∀ (l : List AgentDefinition) (n i : Nat),
      (ResearchEngine.executeAllAux exec n l)[i]? =
        (l[i]?).map (fun a => ResearchEngine.convertOutcome a (exec (n + i) a)) := by
  intro l
  induction l with
  | nil => intro n i; simp [ResearchEngine.executeAllAux]
  | cons a t ih =>
    intro n i
    cases i with
    | zero => simp [ResearchEngine.executeAllAux]
    | succ j =>
      simp only [ResearchEngine.executeAllAux, List.getElem?_cons_succ]
      have harith : n + 1 + j = n + (j + 1) := by omega
      rw [ih (n + 1) j, harith]

/-- C6: `execute_all` returns exactly one result per agent, in input
order, and never raises (the model is a total function); an agent whose
task raised yields a result with a non-empty findings list describing
the error and empty sources and recommendations, while an agent whose
task succeeded yields its own result unchanged. -/
theorem c6_research_partial_failure (agents : List AgentDefinition)
    (exec : Nat → AgentDefinition → Except String AgentResult) :
    (ResearchEngine.execute_all agents exec).length = agents.length
    ∧ ∀ i a, agents[i]? = some a →
        ((∀ r, exec i a = .ok r →
            (ResearchEngine.execute_all agents exec)[i]? = some r)
         ∧ (∀ e, exec i a = .error e →
            (ResearchEngine.execute_all agents exec)[i]? = some
              { agent_id := a.id
                findings := ["Agent execution failed: " ++ e]
                sources := []
                recommendations := []
                raw_response := none }
            ∧ ["Agent execution failed: " ++ e] ≠ ([] : List String))) := by
  refine ⟨executeAllAux_length exec agents 0, ?_⟩
  intro i a ha
  have hpt := executeAllAux_getElem? exec agents 0 i
  rw [ha] at hpt
  simp only [Option.map, Nat.zero_add] at hpt
  constructor
  · intro r hr
    rw [ResearchEngine.execute_all, hpt, hr]
    rfl
  · intro e he
    rw [ResearchEngine.execute_all, hpt, he]
    exact ⟨rfl, by simp⟩

/-- Witness for C6: two concrete agents where the first task raises;
its result is the converted failure, the second agent's result passes
through unchanged. -/
theorem c6_research_partial_failure_witness :
    (ResearchEngine.execute_all [sampleAgentA, sampleAgentB] sampleExec)[0]? =
      some { agent_id := "agent_000_frameworks"
             findings := ["Agent execution failed: socket closed"]
             sources := []
             recommendations := []
             raw_response := none }
    ∧ (ResearchEngine.execute_all [sampleAgentA, sampleAgentB] sampleExec)[1]? =
      some { agent_id := "agent_001_funding"
             findings := ["found"]
             sources := ["src"]
             recommendations := ["rec"]
             raw_response := some "raw" } :=
  ⟨(((c6_research_partial_failure [sampleAgentA, sampleAgentB] sampleExec).2
      0 sampleAgentA rfl).2 "socket closed" rfl).1,
   ((c6_research_partial_failure [sampleAgentA, sampleAgentB] sampleExec).2
      1 sampleAgentB rfl).1 _ rfl⟩

/-! ### Claim C2: end-to-end `generate_all` with a well-behaved provider -/

/-- With a provider that always returns the same non-truncated content,
`generate_document` succeeds on its first attempt. -/
theorem generate_document_clean (oracle : GenOracle) (m : List Char)
    (Hok : ∀ n, oracle n = .ok m) (Ht : isContentTruncated m = false)
    (k : Nat) (dt : DocumentType) (maxRetries : Nat) :
    DocumentGenerator.generate_document oracle k dt maxRetries =
      (successDocument dt m, k + 1) :=
  genDocAux_ok_clean oracle dt maxRetries k [] m (Hok k) Ht

/-- C2: with a provider stub returning fixed well-formed (non-truncated)
markdown on each call, `generate_all` returns a `GeneratedProject` with
exactly 15 documents, one per document type (in batch order), whose
`total_word_count` is the sum of each document's whitespace-token
count, and whose folders and filenames match the static
`DOCUMENT_CONFIG` table for each document's type. -/
theorem c2_end_to_end (oracle : GenOracle) (m : List Char) (k0 : Nat)
    (project : ProjectInput)
    (Hok : ∀ n, oracle n = .ok m) (Ht : isContentTruncated m = false) :
    ((DocumentGenerator.generate_all oracle k0 project).1.documents.length = 15)
    ∧ ((DocumentGenerator.generate_all oracle k0 project).1.documents.map Document.type =
        [.README, .PROJECT_BRIEF, .GLOSSARY, .CONTEXT_BACKGROUND, .STAKEHOLDER_NOTES,
         .GOALS_SUCCESS, .SCOPE_BOUNDARIES, .INITIAL_BUDGET, .TIMELINE_MILESTONES,
         .RISKS_ASSUMPTIONS, .PROCESS_WORKFLOW, .SOPS, .TASK_BACKLOG, .MEETING_NOTES,
         .STATUS_UPDATES])
    ∧ ((DocumentGenerator.generate_all oracle k0 project).1.total_word_count =
        ((DocumentGenerator.generate_all oracle k0 project).1.documents.map
          (fun d => wordCount d.content)).sum)
    ∧ (∀ d ∈ (DocumentGenerator.generate_all oracle k0 project).1.documents,
        d.folder = (DOCUMENT_CONFIG d.type).folder ∧
        d.filename = (DOCUMENT_CONFIG d.type).filename)
    ∧ (DocumentGenerator.generate_all oracle k0 project).1.project_name = project.name := by
  have hdocs : (DocumentGenerator.generate_all oracle k0 project).1.documents =
      [successDocument .README m, successDocument .PROJECT_BRIEF m,
       successDocument .GLOSSARY m, successDocument .CONTEXT_BACKGROUND m,
       successDocument .STAKEHOLDER_NOTES m, successDocument .GOALS_SUCCESS m,
       successDocument .SCOPE_BOUNDARIES m, successDocument .INITIAL_BUDGET m,
       successDocument .TIMELINE_MILESTONES m, successDocument .RISKS_ASSUMPTIONS m,
       successDocument .PROCESS_WORKFLOW m, successDocument .SOPS m,
       successDocument .TASK_BACKLOG m, successDocument .MEETING_NOTES m,
       successDocument .STATUS_UPDATES m] := by
    simp [DocumentGenerator.generate_all, DocumentGenerator.generateAllSteps,
      DocumentGenerator.genBatchesSteps, DocumentGenerator.generateBatchSteps,
      DOCUMENT_BATCHES, generate_document_clean oracle m Hok Ht]
  have htot : (DocumentGenerator.generate_all oracle k0 project).1.total_word_count =
      ((DocumentGenerator.generate_all oracle k0 project).1.documents.map
        Document.word_count).sum := by
    simp [DocumentGenerator.generate_all]
  refine ⟨by rw [hdocs]; rfl, by rw [hdocs]; rfl, ?_, ?_, ?_⟩
  · rw [htot, hdocs]
    rfl
  · intro d hd
    rw [hdocs] at hd
    simp only [List.mem_cons, List.not_mem_nil, or_false] at hd
    rcases hd with rfl | rfl | rfl | rfl | rfl | rfl | rfl | rfl | rfl | rfl | rfl | rfl | rfl | rfl | rfl <;>
      exact ⟨rfl, rfl⟩
  · simp [DocumentGenerator.generate_all]

/-- Witness for C2: the concrete clean provider stub and the sample
project produce 15 documents whose word-count total matches. -/
theorem c2_end_to_end_witness :
    ((DocumentGenerator.generate_all okCleanOracle 0 sampleProject).1.documents.length = 15)
    ∧ ((DocumentGenerator.generate_all okCleanOracle 0 sampleProject).1.total_word_count =
        ((DocumentGenerator.generate_all okCleanOracle 0 sampleProject).1.documents.map
          (fun d => wordCount d.content)).sum)
    ∧ (DocumentGenerator.generate_all okCleanOracle 0 sampleProject).1.project_name =
        "Youth Mentorship" :=
  ⟨(c2_end_to_end okCleanOracle (chars "All good.") 0 sampleProject
      (fun _ => rfl) (by decide)).1,
   (c2_end_to_end okCleanOracle (chars "All good.") 0 sampleProject
      (fun _ => rfl) (by decide)).2.2.1,
   (c2_end_to_end okCleanOracle (chars "All good.") 0 sampleProject
      (fun _ => rfl) (by decide)).2.2.2.2⟩

/-! ### Claim C10: the previous-documents digest -/

/-- Every member of the joined list occurs in the join as a contiguous
segment. -/
theorem joinSep_infix (sep : List Char) :
    ∀ (L : List (List Char)) (x : List Char), x ∈ L →
      x <:+: DocumentGenerator.joinSep sep L := by
  intro L
  induction L with
  | nil => intro x hx; exact absurd hx (List.not_mem_nil x)
  | cons a t ih =>
    intro x hx
    cases t with
    | nil =>
      rw [List.mem_singleton] at hx
      subst hx
      exact List.infix_rfl
    | cons b t2 =>
      rcases List.mem_cons.mp hx with rfl | hx2
      · refine ⟨[], sep ++ DocumentGenerator.joinSep sep (b :: t2), ?_⟩
        simp [DocumentGenerator.joinSep]
      · refine (ih x hx2).trans ?_
        refine ⟨a ++ sep, [], ?_⟩
        simp [DocumentGenerator.joinSep]

/-- C10: the digest inserted into every generation prompt (each of the
15 prompt builders interpolates `_get_previous_context(previous_docs)`)
depends only on the last three documents — any earlier documents
contribute nothing; each of the last (up to) three documents
contributes its entry, consisting of its title and at most the first
500 characters of its content, with `"..."` appended exactly when the
content is longer than 500 characters. -/
theorem c10_previous_context :
    (∀ (pre docs : List Document), 3 ≤ docs.length →
      DocumentGenerator.get_previous_context (pre ++ docs) =
        DocumentGenerator.get_previous_context docs)
    ∧ (∀ (docs : List Document) (d : Document),
        d ∈ docs.drop (docs.length - 3) →
          DocumentGenerator.contextEntry d <:+:
            DocumentGenerator.get_previous_context docs)
    ∧ (∀ c : List Char,
        (c.length ≤ 500 → DocumentGenerator.excerptOf c = c) ∧
        (500 < c.length →
          DocumentGenerator.excerptOf c = c.take 500 ++ chars "...")) := by
  refine ⟨?_, ?_, ?_⟩
  · intro pre docs h
    have hd : docs ≠ [] := by
      intro h0
      rw [h0] at h
      simp at h
    have hpd : pre ++ docs ≠ [] := by simp [hd]
    unfold DocumentGenerator.get_previous_context
    rw [if_neg hpd, if_neg hd]
    have hlen : (pre ++ docs).length - 3 = pre.length + (docs.length - 3) := by
      rw [List.length_append]
      omega
    rw [hlen, List.drop_append]
  · intro docs d hd
    have hmem : d ∈ docs := List.mem_of_mem_drop hd
    have hne : docs ≠ [] := by
      rintro rfl
      exact absurd hmem (List.not_mem_nil d)
    unfold DocumentGenerator.get_previous_context
    rw [if_neg hne]
    exact joinSep_infix _ _ _ (List.mem_map_of_mem _ hd)
  · intro c
    constructor
    · intro h
      rw [DocumentGenerator.excerptOf, if_neg (by omega)]
    · intro h
      rw [DocumentGenerator.excerptOf, if_pos h]

/-- Witness for C10: with four concrete documents, prepending a fourth
document before the last three leaves the digest unchanged, and a short
content is excerpted verbatim. -/
theorem c10_previous_context_witness :
    DocumentGenerator.get_previous_context
        ([successDocument .README (chars "zero")] ++
          [successDocument .PROJECT_BRIEF (chars "one"),
           successDocument .GLOSSARY (chars "two"),
           successDocument .CONTEXT_BACKGROUND (chars "three")]) =
      DocumentGenerator.get_previous_context
        [successDocument .PROJECT_BRIEF (chars "one"),
         successDocument .GLOSSARY (chars "two"),
         successDocument .CONTEXT_BACKGROUND (chars "three")]
    ∧ DocumentGenerator.excerptOf (chars "short") = chars "short" :=
  ⟨c10_previous_context.1 [successDocument .README (chars "zero")]
      [successDocument .PROJECT_BRIEF (chars "one"),
       successDocument .GLOSSARY (chars "two"),
       successDocument .CONTEXT_BACKGROUND (chars "three")] (by decide),
   (c10_previous_context.2.2 (chars "short")).1 (by decide)⟩

/-! ### Claim C3: batch ordering and context completeness -/

/-- Within a batch, every step's recorded context extends the documents
accumulated before the batch started. -/
theorem generateBatchSteps_context (oracle : GenOracle) :
    ∀ (types : List DocumentType) (k : Nat) (prev : List Document),
      ∀ st ∈ (DocumentGenerator.generateBatchSteps oracle types k prev).1,
        prev <+: st.context := by
  intro types
  induction types with
  | nil =>
    intro k prev st hst
    simp [DocumentGenerator.generateBatchSteps] at hst
  | cons dt rest ih =>
    intro k prev st hst
    simp only [DocumentGenerator.generateBatchSteps, List.mem_cons] at hst
    rcases hst with rfl | h2
    · exact List.prefix_rfl
    · exact List.prefix_append prev _ |>.trans (ih _ _ st h2)

/-- Documents accumulated before the batch loop runs are contained in
the context of every later step. -/
theorem genBatchesSteps_acc_mem (oracle : GenOracle) :
    ∀ (batches : List DocumentBatch) (k : Nat) (acc : List Document)
      (x : Document), x ∈ acc →
      ∀ p ∈ (DocumentGenerator.genBatchesSteps oracle batches k acc).1,
        ∀ st ∈ p.2, x ∈ st.context := by
  intro batches
  induction batches with
  | nil =>
    intro k acc x hx p hp
    simp [DocumentGenerator.genBatchesSteps] at hp
  | cons b rest ih =>
    intro k acc x hx p hp st hst
    simp only [DocumentGenerator.genBatchesSteps, List.mem_cons] at hp
    rcases hp with rfl | h2
    · exact (generateBatchSteps_context oracle b.document_types k acc st hst).subset hx
    · exact ih _ _ x (List.mem_append_left _ hx) p h2 st hst

/-- The batch loop produces the batches it was given, in order. -/
theorem genBatchesSteps_map_fst (oracle : GenOracle) :
    ∀ (batches : List DocumentBatch) (k : Nat) (acc : List Document),
      (DocumentGenerator.genBatchesSteps oracle batches k acc).1.map Prod.fst =
        batches := by
  intro batches
  induction batches with
  | nil => intro k acc; rfl
  | cons b rest ih =>
    intro k acc
    simp [DocumentGenerator.genBatchesSteps, ih _ _]

/-- Across the batch loop, every document produced by an earlier batch
is in the context supplied to every step of every later batch. -/
theorem genBatchesSteps_pairwise (oracle : GenOracle) :
    ∀ (batches : List DocumentBatch) (k : Nat) (acc : List Document),
      List.Pairwise
        (fun p q => ∀ d ∈ p.2.map DocumentGenerator.GenStep.doc,
          ∀ st ∈ q.2, d ∈ st.context)
        (DocumentGenerator.genBatchesSteps oracle batches k acc).1 := by
  intro batches
  induction batches with
  | nil => intro k acc; exact List.Pairwise.nil
  | cons b rest ih =>
    intro k acc
    simp only [DocumentGenerator.genBatchesSteps]
    refine List.pairwise_cons.mpr ⟨?_, ih _ _⟩
    intro q hq d hd st hst
    exact genBatchesSteps_acc_mem oracle rest _ _ d
      (List.mem_append_right acc hd) q hq st hst

/-- Dependency arrows in the fixed batch table always point to earlier
positions in the table. -/
theorem DOCUMENT_BATCHES_deps_backward :
    ∀ i j : Nat, i < 5 → j < 5 →
      ((DOCUMENT_BATCHES.getD i ⟨0, [], []⟩).batch_number ∈
        (DOCUMENT_BATCHES.getD j ⟨0, [], []⟩).depends_on → i < j) := by
  intro i j hi hj
  interval_cases i <;> interval_cases j <;> decide

/-- C3: in a full `generate_all` run, whenever one batch declares a
dependency on another (by batch number), every document produced by the
dependency batch is in the `previous_docs` context supplied to every
document generated in the dependent batch — so generation for a batch
only happens with its declared dependencies complete in the
accumulating sequence. -/
theorem c3_batch_ordering (oracle : GenOracle) (k0 : Nat) :
    ∀ (i j : Nat) (bi bj : DocumentBatch)
      (si sj : List DocumentGenerator.GenStep),
      (DocumentGenerator.generateAllSteps oracle k0).1[i]? = some (bi, si) →
      (DocumentGenerator.generateAllSteps oracle k0).1[j]? = some (bj, sj) →
      bi.batch_number ∈ bj.depends_on →
      ∀ st ∈ sj, ∀ d ∈ si.map DocumentGenerator.GenStep.doc, d ∈ st.context := by
  intro i j bi bj si sj h1 h2 hmem st hst d hd
  have hfst : (DocumentGenerator.generateAllSteps oracle k0).1.map Prod.fst =
      DOCUMENT_BATCHES :=
    genBatchesSteps_map_fst oracle DOCUMENT_BATCHES k0 []
  have hlen : (DocumentGenerator.generateAllSteps oracle k0).1.length = 5 := by
    have h5 := congrArg List.length hfst
    simpa using h5
  have hi : i < (DocumentGenerator.generateAllSteps oracle k0).1.length :=
    (List.getElem?_eq_some.mp h1).choose
  have hj : j < (DocumentGenerator.generateAllSteps oracle k0).1.length :=
    (List.getElem?_eq_some.mp h2).choose
  have hDi : DOCUMENT_BATCHES[i]? = some bi := by
    rw [← hfst, List.getElem?_map, h1]
    rfl
  have hDj : DOCUMENT_BATCHES[j]? = some bj := by
    rw [← hfst, List.getElem?_map, h2]
    rfl
  have hgdi : DOCUMENT_BATCHES.getD i ⟨0, [], []⟩ = bi := by
    rw [List.getD_eq_getElem?_getD, hDi]
    rfl
  have hgdj : DOCUMENT_BATCHES.getD j ⟨0, [], []⟩ = bj := by
    rw [List.getD_eq_getElem?_getD, hDj]
    rfl
  have hkey := DOCUMENT_BATCHES_deps_backward i j (hlen ▸ hi) (hlen ▸ hj)
  rw [hgdi, hgdj] at hkey
  have hij : i < j := hkey hmem
  have hpw : List.Pairwise
      (fun p q => ∀ d ∈ p.2.map DocumentGenerator.GenStep.doc,
        ∀ st ∈ q.2, d ∈ st.context)
      (DocumentGenerator.generateAllSteps oracle k0).1 :=
    genBatchesSteps_pairwise oracle DOCUMENT_BATCHES k0 []
  rw [List.pairwise_iff_getElem] at hpw
  have hgi : (DocumentGenerator.generateAllSteps oracle k0).1[i] = (bi, si) :=
    (List.getElem?_eq_some.mp h1).choose_spec
  have hgj : (DocumentGenerator.generateAllSteps oracle k0).1[j] = (bj, sj) :=
    (List.getElem?_eq_some.mp h2).choose_spec
  have hR := hpw i j hi hj hij
  rw [hgi, hgj] at hR
  exact hR d hd st hst

/-- Witness for C3: with the clean provider stub, the README document
produced in batch 1 appears in the context supplied to the first
document of batch 2 (which depends on batch 1). -/
theorem c3_batch_ordering_witness :
    successDocument .README (chars "All good.") ∈
      ((((DocumentGenerator.generateAllSteps okCleanOracle 0).1.getD 1 (⟨1, [], []⟩, [])).2.getD 0
        ⟨.README, [], successDocument .README []⟩)).context :=
  c3_batch_ordering okCleanOracle 0 0 1
    ((DocumentGenerator.generateAllSteps okCleanOracle 0).1.getD 0 (⟨1, [], []⟩, [])).1
    ((DocumentGenerator.generateAllSteps okCleanOracle 0).1.getD 1 (⟨1, [], []⟩, [])).1
    ((DocumentGenerator.generateAllSteps okCleanOracle 0).1.getD 0 (⟨1, [], []⟩, [])).2
    ((DocumentGenerator.generateAllSteps okCleanOracle 0).1.getD 1 (⟨1, [], []⟩, [])).2
    (by decide) (by decide) (by decide)
    (((DocumentGenerator.generateAllSteps okCleanOracle 0).1.getD 1 (⟨1, [], []⟩, [])).2.getD 0
      ⟨.README, [], successDocument .README []⟩)
    (by decide) (successDocument .README (chars "All good.")) (by decide)

/-! ### Claim C7: the truncation detector — helper lemmas -/

/-- Dropping a prefix cannot destroy a suffix that starts with a
character the predicate rejects. -/
theorem suffix_dropWhile (p : Char → Bool) (c0 : Char) (suf0 : List Char)
    (hp : p c0 = false) :
    ∀ l, (c0 :: suf0) <:+ l → (c0 :: suf0) <:+ l.dropWhile p := by
  intro l
  induction l with
  | nil =>
    intro h
    exact absurd (List.suffix_nil.mp h) (by simp)
  | cons a t ih =>
    intro h
    rcases List.suffix_cons_iff.mp h with heq | htail
    · obtain ⟨rfl, rfl⟩ : a = c0 ∧ t = suf0 := by
        have h2 := List.cons.injEq c0 suf0 a t ▸ heq
        exact ⟨h2.1.symm, h2.2.symm⟩
      rw [List.dropWhile_cons, hp]
      simp
    · rw [List.dropWhile_cons]
      split
      · exact ih htail
      · exact htail.trans (List.suffix_cons a t)

/-- Right-stripping (via reverse and `dropWhile`) cannot destroy a
suffix whose last character the predicate rejects. -/
theorem suffix_rstrip (p : Char → Bool) (suf : List Char) (c1 : Char)
    (hlast : suf.getLast? = some c1) (hp : p c1 = false) :
    ∀ l, suf <:+ l → suf <:+ (l.reverse.dropWhile p).reverse := by
  intro l h
  obtain ⟨rest, hrest⟩ : suf.reverse <+: l.reverse := List.reverse_prefix.mpr h
  cases hsr : suf.reverse with
  | nil =>
    have : suf = [] := by simpa using congrArg List.reverse hsr
    rw [this]
    exact List.nil_suffix
  | cons c' tail =>
    have hc' : c' = c1 := by
      have h1 : suf.reverse.head? = some c1 := by rw [List.head?_reverse, hlast]
      rw [hsr] at h1
      simpa using h1
    subst hc'
    rw [hsr] at hrest
    rw [← hrest, List.cons_append, List.dropWhile_cons, hp]
    simp only [Bool.false_eq_true, if_false]
    refine ⟨rest.reverse, ?_⟩
    rw [← List.cons_append, ← hsr, List.reverse_append, List.reverse_reverse]

/-- Python `strip` cannot destroy a suffix whose first and last
characters are non-whitespace. -/
theorem suffix_pyStrip (c0 : Char) (suf0 : List Char)
    (hp0 : isPySpace c0 = false) (c1 : Char)
    (hlast : (c0 :: suf0).getLast? = some c1) (hp1 : isPySpace c1 = false) :
    ∀ l, (c0 :: suf0) <:+ l → (c0 :: suf0) <:+ pyStrip l := by
  intro l h
  exact suffix_rstrip isPySpace (c0 :: suf0) c1 hlast hp1 _
    (suffix_dropWhile isPySpace c0 suf0 hp0 l h)

/-- The function `splitNl` never returns the empty list (Python `split` always
yields at least one chunk). -/
theorem splitNl_ne_nil : ∀ l : List Char, splitNl l ≠ [] := by
  intro l
  cases l with
  | nil => simp [splitNl]
  | cons c rest =>
    rw [splitNl]
    split
    · simp
    · split <;> simp

/-- A chunk without newlines is returned whole. -/
theorem splitNl_no_nl : ∀ l : List Char, '\n' ∉ l → splitNl l = [l] := by
  intro l
  induction l with
  | nil => intro _; rfl
  | cons c rest ih =>
    intro h
    have hc : ¬ (c = '\n') := fun hc => h (hc ▸ List.mem_cons_self c rest)
    have hrest : '\n' ∉ rest := fun hr => h (List.mem_cons_of_mem c hr)
    rw [splitNl, if_neg hc, ih hrest]

/-- A newline-free suffix of the content survives, as a suffix, into
the last chunk of the newline split. -/
theorem splitNl_getLast?_suffix (suf : List Char) (hnl : '\n' ∉ suf) :
    ∀ l, suf <:+ l →
      ∃ last, (splitNl l).getLast? = some last ∧ suf <:+ last := by
  intro l
  induction l with
  | nil =>
    intro h
    have hs : suf = [] := List.suffix_nil.mp h
    exact ⟨[], rfl, hs ▸ List.nil_suffix⟩
  | cons a t ih =>
    intro h
    rcases List.suffix_cons_iff.mp h with heq | htail
    · refine ⟨a :: t, ?_, heq ▸ List.suffix_rfl⟩
      rw [splitNl_no_nl (a :: t) (heq ▸ hnl)]
      rfl
    · obtain ⟨last, hl, hs⟩ := ih htail
      by_cases ha : a = '\n'
      · rw [splitNl, if_pos ha]
        cases hsp : splitNl t with
        | nil => exact absurd hsp (splitNl_ne_nil t)
        | cons s0 S2 =>
          rw [hsp] at hl
          exact ⟨last, by rw [List.getLast?_cons_cons, hl], hs⟩
      · rw [splitNl, if_neg ha]
        cases hsp : splitNl t with
        | nil => exact absurd hsp (splitNl_ne_nil t)
        | cons s0 S2 =>
          rw [hsp] at hl
          cases S2 with
          | nil =>
            have hs0 : s0 = last := by simpa using hl
            subst hs0
            exact ⟨a :: s0, rfl, hs.trans (List.suffix_cons a s0)⟩
          | cons s1 S3 =>
            exact ⟨last, by rw [List.getLast?_cons_cons, ← List.getLast?_cons_cons (a := s0), hl], hs⟩

/-- The last element of a list survives mapping and filtering when the
filter keeps its image. -/
theorem getLast?_map_filter (f : List Char → List Char)
    (p : List Char → Bool) :
    ∀ (S : List (List Char)) (x : List Char), S.getLast? = some x →
      p (f x) = true → ((S.map f).filter p).getLast? = some (f x) := by
  intro S
  induction S with
  | nil => intro x hx hp; simp at hx
  | cons a t ih =>
    intro x hx hp
    cases t with
    | nil =>
      have hax : a = x := by simpa using hx
      subst hax
      simp [List.filter_cons, hp]
    | cons b t2 =>
      have hx2 : (b :: t2).getLast? = some x := by
        rw [← List.getLast?_cons_cons (a := a), hx]
      have hF := ih x hx2 hp
      have hFne : ((b :: t2).map f).filter p ≠ [] := by
        intro h0
        rw [h0] at hF
        simp at hF
      rw [List.map_cons, List.filter_cons]
      split
      · cases hc : ((b :: t2).map f).filter p with
        | nil => exact absurd hc hFne
        | cons y ys =>
          rw [hc] at hF
          rw [List.getLast?_cons_cons]
          exact hF
      · exact hF

/-- A non-empty suffix fixes the last element. -/
theorem getLast?_of_suffix (suf l : List Char) (hne : suf ≠ [])
    (h : suf <:+ l) : l.getLast? = suf.getLast? := by
  obtain ⟨r, rfl⟩ := h
  exact List.getLast?_append_of_ne_nil r hne

/-- The last non-empty stripped line of the content keeps a
newline-free suffix whose boundary characters are non-whitespace. -/
theorem linesOf_getLast?_suffix (c0 : Char) (suf0 : List Char)
    (hnl : '\n' ∉ (c0 :: suf0)) (hp0 : isPySpace c0 = false) (c1 : Char)
    (hlast : (c0 :: suf0).getLast? = some c1) (hp1 : isPySpace c1 = false) :
    ∀ c, (c0 :: suf0) <:+ c →
      ∃ ll, (linesOf c).getLast? = some ll ∧ (c0 :: suf0) <:+ ll := by
  intro c hc
  obtain ⟨L, hL, hsL⟩ := splitNl_getLast?_suffix (c0 :: suf0) hnl c hc
  have hstrip : (c0 :: suf0) <:+ pyStrip L :=
    suffix_pyStrip c0 suf0 hp0 c1 hlast hp1 L hsL
  have hne2 : pyStrip L ≠ [] := by
    intro h0
    rw [h0] at hstrip
    exact absurd (List.suffix_nil.mp hstrip) (by simp)
  have hp : (fun l => !l.isEmpty) (pyStrip L) = true := by
    simpa using hne2
  exact ⟨pyStrip L, getLast?_map_filter pyStrip _ (splitNl c) L hL hp, hstrip⟩

/-- Scanning past a non-backtick character does not change the fence
count. -/
theorem countTriple_cons_ne (a : Char) (t : List Char)
    (ha : ¬ (a = backtickChar)) : countTriple (a :: t) = countTriple t := by
  cases t with
  | nil => rfl
  | cons b t2 =>
    cases t2 with
    | nil => rfl
    | cons c t3 => simp [countTriple, ha]

/-- A backtick-free string has no fences. -/
theorem countTriple_zero (w : List Char)
    (hw : ∀ c ∈ w, ¬ (c = backtickChar)) : countTriple w = 0 := by
  induction w with
  | nil => rfl
  | cons a t ih =>
    rw [countTriple_cons_ne a t (hw a (List.mem_cons_self a t))]
    exact ih (fun c hc => hw c (List.mem_cons_of_mem a hc))

/-- Appending backtick-free characters does not change the fence count
(by strong induction on the length of the left part). -/
theorem countTriple_append_aux (w : List Char)
    (hw : ∀ c ∈ w, ¬ (c = backtickChar)) :
    ∀ (n : Nat) (l : List Char), l.length ≤ n →
      countTriple (l ++ w) = countTriple l := by
  intro n
  induction n with
  | zero =>
    intro l hlen
    have hl : l = [] := List.length_eq_zero.mp (Nat.le_zero.mp hlen)
    subst hl
    simpa using countTriple_zero w hw
  | succ n ih =>
    intro l hlen
    match l with
    | [] => simpa using countTriple_zero w hw
    | [c1] =>
      show countTriple (c1 :: w) = countTriple [c1]
      cases w with
      | nil => rfl
      | cons w0 w2 =>
        have hw0 : ¬ (w0 = backtickChar) := hw w0 (List.mem_cons_self w0 w2)
        cases w2 with
        | nil => rfl
        | cons w1 w3 =>
          have h1 : countTriple (c1 :: w0 :: w1 :: w3) = countTriple (w0 :: w1 :: w3) := by
            simp [countTriple, hw0]
          rw [h1, countTriple_zero (w0 :: w1 :: w3) hw]
          rfl
    | [c1, c2] =>
      show countTriple (c1 :: c2 :: w) = countTriple [c1, c2]
      cases w with
      | nil => rfl
      | cons w0 w2 =>
        have hw0 : ¬ (w0 = backtickChar) := hw w0 (List.mem_cons_self w0 w2)
        have h1 : countTriple (c1 :: c2 :: w0 :: w2) = countTriple (c2 :: w0 :: w2) := by
          by_cases hc1 : c1 = backtickChar
          · by_cases hc2 : c2 = backtickChar
            · simp [countTriple, hc1, hc2, hw0]
            · simp [countTriple, hc1, hc2]
          · simp [countTriple, hc1]
        have h2 : countTriple ([c2] ++ (w0 :: w2)) = countTriple [c2] :=
          ih [c2] (by simp only [List.length_cons, List.length_nil] at hlen ⊢; omega)
        rw [h1]
        rw [show c2 :: w0 :: w2 = [c2] ++ (w0 :: w2) from rfl, h2]
        rfl
    | c1 :: c2 :: c3 :: rest =>
      by_cases hbt : c1 = backtickChar ∧ c2 = backtickChar ∧ c3 = backtickChar
      · obtain ⟨h1, h2, h3⟩ := hbt
        have e1 : countTriple (c1 :: c2 :: c3 :: (rest ++ w)) = 1 + countTriple (rest ++ w) := by
          simp [countTriple, h1, h2, h3]
        have e2 : countTriple (c1 :: c2 :: c3 :: rest) = 1 + countTriple rest := by
          simp [countTriple, h1, h2, h3]
        have hlen2 : rest.length ≤ n := by
          simp only [List.length_cons] at hlen
          omega
        show countTriple (c1 :: c2 :: c3 :: (rest ++ w)) = countTriple (c1 :: c2 :: c3 :: rest)
        rw [e1, e2, ih rest hlen2]
      · have e1 : countTriple (c1 :: c2 :: c3 :: (rest ++ w)) =
            countTriple (c2 :: c3 :: (rest ++ w)) := by
          rw [countTriple]
          rw [if_neg (by simpa [backtickChar] using fun a b c => hbt ⟨a, b, c⟩)]
        have e2 : countTriple (c1 :: c2 :: c3 :: rest) = countTriple (c2 :: c3 :: rest) := by
          rw [countTriple]
          rw [if_neg (by simpa [backtickChar] using fun a b c => hbt ⟨a, b, c⟩)]
        have hlen2 : (c2 :: c3 :: rest).length ≤ n := by
          simp only [List.length_cons] at hlen ⊢
          omega
        show countTriple (c1 :: c2 :: c3 :: (rest ++ w)) = countTriple (c1 :: c2 :: c3 :: rest)
        rw [e1, e2, ← ih (c2 :: c3 :: rest) hlen2]
        rfl

/-- Left-stripping whitespace does not change the fence count. -/
theorem countTriple_dropWhile (l : List Char) :
    countTriple (List.dropWhile isPySpace l) = countTriple l := by
  induction l with
  | nil => rfl
  | cons a t ih =>
    rw [List.dropWhile_cons]
    split
    · next hws =>
      have hane : ¬ (a = backtickChar) := by
        intro hbt
        rw [hbt] at hws
        exact absurd hws (by decide)
      rw [countTriple_cons_ne a t hane]
      exact ih
    · rfl

/-- Python `strip` does not change the fence count. -/
theorem countTriple_pyStrip (l : List Char) :
    countTriple (pyStrip l) = countTriple l := by
  have h1 : countTriple (List.dropWhile isPySpace l) = countTriple l :=
    countTriple_dropWhile l
  set m := List.dropWhile isPySpace l with hm
  have hdecomp : m = (m.reverse.dropWhile isPySpace).reverse ++
      (m.reverse.takeWhile isPySpace).reverse := by
    conv_lhs => rw [← List.reverse_reverse m,
      ← List.takeWhile_append_dropWhile (p := isPySpace) (l := m.reverse)]
    rw [List.reverse_append]
  have hw : ∀ c ∈ (m.reverse.takeWhile isPySpace).reverse,
      ¬ (c = backtickChar) := by
    intro c hc hbt
    have hc2 : c ∈ m.reverse.takeWhile isPySpace := List.mem_reverse.mp hc
    have hws := List.mem_takeWhile_imp hc2
    rw [hbt] at hws
    exact absurd hws (by decide)
  have h2 : countTriple ((m.reverse.dropWhile isPySpace).reverse ++
      (m.reverse.takeWhile isPySpace).reverse) =
      countTriple ((m.reverse.dropWhile isPySpace).reverse) :=
    countTriple_append_aux _ hw _ _ le_rfl
  show countTriple ((m.reverse.dropWhile isPySpace).reverse) = countTriple l
  rw [← h1, ← h2, ← hdecomp]

/-- Part (c) of the claim: an odd number of code-fence markers flags
truncation regardless of how the content ends. -/
theorem odd_fences_truncated (s : List Char)
    (h : countTriple s % 2 = 1) : isContentTruncated s = true := by
  simp only [isContentTruncated]
  by_cases h0 : pyStrip s = []
  · rw [if_pos h0]
  · rw [if_neg h0]
    have hodd : countTriple (pyStrip s) % 2 ≠ 0 := by
      rw [countTriple_pyStrip]
      omega
    rw [if_pos hodd]

/-- Part (a) of the claim: a string ending in `"...the budget is"`
whose last non-empty stripped line is not one of the exempt special
line types is flagged truncated. -/
theorem budget_suffix_truncated (s : List Char)
    (hsuf : chars "...the budget is" <:+ s)
    (hsp : Option.all (fun l => !isSpecialLine l)
      ((linesOf (pyStrip s)).getLast?) = true) :
    isContentTruncated s = true := by
  have hstrip : ('.' :: chars "..the budget is") <:+ pyStrip s :=
    suffix_pyStrip '.' (chars "..the budget is") (by decide) 's'
      (by decide) (by decide) s hsuf
  have hne : pyStrip s ≠ [] := by
    intro h0
    rw [h0] at hstrip
    exact absurd (List.suffix_nil.mp hstrip) (by decide)
  obtain ⟨ll, hll, hllsuf⟩ :=
    linesOf_getLast?_suffix '.' (chars "..the budget is") (by decide)
      (by decide) 's' (by decide) (by decide) (pyStrip s) hstrip
  have hspec : isSpecialLine ll = false := by
    rw [hll] at hsp
    simpa using hsp
  have hlastll : ll.getLast? = some 's' := by
    rw [getLast?_of_suffix ('.' :: chars "..the budget is") ll (by decide) hllsuf]
    decide
  have hend : endsValid ll = false := by
    rw [endsValid, hlastll]
    decide
  have hmid : midSentenceFlag (pyStrip s) = true := by
    rw [midSentenceFlag, hll]
    simp [hspec, hend]
  simp only [isContentTruncated]
  rw [if_neg hne]
  by_cases hodd : countTriple (pyStrip s) % 2 ≠ 0
  · rw [if_pos hodd]
  · rw [if_neg hodd, if_pos hmid]

/-- C7: the truncation detector flags any string ending in
`"...the budget is"` whose last non-empty stripped line is not one of
the exempt special line types (heading/table-row/code-marker/rule/list
item); it does not flag the spec's exemplar ending in `"finalized."`;
and it flags any string containing an odd number of triple-backtick
fences regardless of its ending punctuation. -/
theorem c7_truncation_detector :
    (∀ s : List Char, chars "...the budget is" <:+ s →
      Option.all (fun l => !isSpecialLine l)
        ((linesOf (pyStrip s)).getLast?) = true →
      isContentTruncated s = true)
    ∧ isContentTruncated (chars "The budget is finalized.") = false
    ∧ (∀ s : List Char, countTriple s % 2 = 1 →
        isContentTruncated s = true) :=
  ⟨budget_suffix_truncated, by decide, odd_fences_truncated⟩

/-- Witness for C7: a concrete string ending in `"...the budget is"`
is flagged, and a concrete string with one fence marker is flagged. -/
theorem c7_truncation_detector_witness :
    isContentTruncated (chars "We met today and decided ...the budget is") = true
    ∧ isContentTruncated (chars "one ``` two.") = true :=
  ⟨c7_truncation_detector.1 (chars "We met today and decided ...the budget is")
      (by decide) (by decide),
   c7_truncation_detector.2.2 (chars "one ``` two.") (by decide)⟩
